import Mathlib

/-!
Verification of the `100-go-mistakes-practice` samples.

Two groups of Go samples are embedded here.

* `02/1-variable-shadowing/main.go`: the four functions `listing1` .. `listing4`.
  Go block scoping is made explicit: the state carries a stack of scopes, `:=` declares in
  the innermost scope, `=` assigns to the innermost scope that binds the name, and a
  `return` stops the function and keeps the state of the point where it was executed.
* `02/3-init-functions/{sub,main}/main.go`: package initialisation, as an output trace.
-/

namespace Shadowing

/-- The identifiers declared in `listing1` .. `listing4`. -/
inductive Ident where
  | client
  | err
  | c
  deriving DecidableEq

/-- A value of type `*http.Client`: `none` is the nil pointer, `some a` a pointer to a client. -/
abbrev Handle := Option Nat

/-- A value of type `error`: `none` is the nil error, `some m` a non-nil error. -/
abbrev Error := Option String

/-- The values a variable of the listings can hold. -/
inductive Val where
  | handle (h : Handle)
  | error (e : Error)
  deriving DecidableEq

/-- The two client constructors of the file. -/
inductive Ctor where
  | createClientWithTracing
  | createDefaultClient
  deriving DecidableEq

/-- One block scope: the variables declared in it, the latest declaration first. -/
abbrev Scope := List (Ident × Val)

/-- The state of a running listing. `scopes` has the innermost block first and the function
body last; `calls` are the constructor calls made so far, `logged` the arguments passed to
`log.Println`, `discarded` the values evaluated by `_ = x` statements, all oldest first. -/
structure State where
  scopes : List Scope
  calls : List Ctor
  logged : List Val
  discarded : List Val
  deriving DecidableEq

/-- The result of running a statement: it falls through with a value (`next`), executes a
`return e` (`ret`, which keeps the state at the return statement), or uses an identifier that
is not in scope or has the wrong type (`stuck`, which the Go compiler rules out). -/
inductive Res (α : Type) where
  | next (a : α) (s : State)
  | ret (e : Error) (s : State)
  | stuck

/-- Statements: state transformers that may return from the function early. -/
def Exec (α : Type) : Type := State → Res α

/-- Sequencing: the second statement runs only when the first falls through. -/
def Exec.bind {α β : Type} (m : Exec α) (f : α → Exec β) : Exec β := fun s =>
  match m s with
  | .next a s1 => f a s1
  | .ret e s1 => .ret e s1
  | .stuck => .stuck

instance : Monad Exec where
  pure a := fun s => .next a s
  bind := Exec.bind

/-- Value bound to `x` in one scope. -/
def Scope.find (x : Ident) : Scope → Option Val
  | [] => none
  | (y, v) :: rest => if y = x then some v else Scope.find x rest

/-- Overwrite the binding of `x` in one scope, if there is one. -/
def Scope.set (x : Ident) (v : Val) : Scope → Scope
  | [] => []
  | (y, w) :: rest => if y = x then (y, v) :: rest else (y, w) :: Scope.set x v rest

/-- Resolve `x`: the innermost scope that declares it wins. -/
def lookupScopes (x : Ident) : List Scope → Option Val
  | [] => none
  | sc :: rest =>
    match Scope.find x sc with
    | some v => some v
    | none => lookupScopes x rest

/-- Assign to `x`: the innermost scope that declares it is updated. -/
def assignScopes (x : Ident) (v : Val) : List Scope → Option (List Scope)
  | [] => none
  | sc :: rest =>
    match Scope.find x sc with
    | some _ => some (Scope.set x v sc :: rest)
    | none => (assignScopes x v rest).map (fun r => sc :: r)

/-- Declare `x` in the innermost scope (`var x T` with its value, or a name new to the block
on the left of `:=`). -/
def declareScopes (x : Ident) (v : Val) : List Scope → Option (List Scope)
  | [] => none
  | sc :: rest => some (((x, v) :: sc) :: rest)

/-- The left-hand side `x` of a `:=`: assigned if the innermost scope already declares `x`,
declared there otherwise. Outer scopes are never consulted. -/
def shortDeclScopes (x : Ident) (v : Val) : List Scope → Option (List Scope)
  | [] => none
  | sc :: rest =>
    match Scope.find x sc with
    | some _ => some (Scope.set x v sc :: rest)
    | none => some (((x, v) :: sc) :: rest)

/-- Lift a scope-stack update to a statement. -/
def updScopes (f : List Scope → Option (List Scope)) : Exec Unit := fun s =>
  match f s.scopes with
  | some sc => .next () { s with scopes := sc }
  | none => .stuck

/-- Statement `var x T`, with `v` the zero value of `T`. -/
def declVar (x : Ident) (v : Val) : Exec Unit := updScopes (declareScopes x v)

/-- Statement `x, y := f()` where `r` is the pair returned by `f`. -/
def shortDecl (x y : Ident) (r : Handle × Error) : Exec Unit := do
  updScopes (shortDeclScopes x (.handle r.1))
  updScopes (shortDeclScopes y (.error r.2))

/-- Statement `x, y = f()` where `r` is the pair returned by `f`. -/
def assignPair (x y : Ident) (r : Handle × Error) : Exec Unit := do
  updScopes (assignScopes x (.handle r.1))
  updScopes (assignScopes y (.error r.2))

/-- Statement `x = v`. -/
def assign (x : Ident) (v : Val) : Exec Unit := updScopes (assignScopes x v)

/-- Expression `x`. -/
def read (x : Ident) : Exec Val := fun s =>
  match lookupScopes x s.scopes with
  | some v => .next v s
  | none => .stuck

/-- Expression `x` where `x` has type `error`. -/
def readErr (x : Ident) : Exec Error := fun s =>
  match lookupScopes x s.scopes with
  | some (.error e) => .next e s
  | _ => .stuck

/-- A block `{ ... }`: a fresh innermost scope for the body, dropped when the body falls
through. A `return` inside the body leaves the function with the block still open. -/
def block (body : Exec Unit) : Exec Unit := fun s =>
  match body { s with scopes := [] :: s.scopes } with
  | .next _ s1 => .next () { s1 with scopes := s1.scopes.tail }
  | .ret e s1 => .ret e s1
  | .stuck => .stuck

/-- Statement `return e`. -/
def returnWith (e : Error) : Exec Unit := fun s => .ret e s

/-- Statement `log.Println(v)`. -/
def logPrintln (v : Val) : Exec Unit := fun s =>
  .next () { s with logged := s.logged ++ [v] }

/-- Statement `_ = v`. -/
def discard (v : Val) : Exec Unit := fun s =>
  .next () { s with discarded := s.discarded ++ [v] }

/-- A call of constructor `k`, which returns `r`. -/
def call (k : Ctor) (r : Handle × Error) : Exec (Handle × Error) := fun s =>
  .next r { s with calls := s.calls ++ [k] }

/-- The package-level names the listings depend on: the `tracing` flag and what the two
constructors return when called. -/
structure Env where
  tracing : Bool
  createClientWithTracing : Handle × Error
  createDefaultClient : Handle × Error
  deriving DecidableEq

/-- The state on entry of a function: the empty function-body scope, nothing observed. -/
def State.entry : State := { scopes := [[]], calls := [], logged := [], discarded := [] }

/-- Go `listing1` (main.go lines 10-29). -/
def listing1 (env : Env) : Exec Unit := do
  declVar .client (.handle none)
  if env.tracing then
    block do
      let r ← call .createClientWithTracing env.createClientWithTracing
      shortDecl .client .err r
      let e ← readErr .err
      if e ≠ none then
        block (returnWith e)
      let v ← read .client
      logPrintln v
  else
    block do
      let r ← call .createDefaultClient env.createDefaultClient
      shortDecl .client .err r
      let e ← readErr .err
      if e ≠ none then
        block (returnWith e)
      let v ← read .client
      logPrintln v
  let v ← read .client
  discard v
  returnWith none

/-- Go `listing2` (main.go lines 34-51). -/
def listing2 (env : Env) : Exec Unit := do
  declVar .client (.handle none)
  if env.tracing then
    block do
      let r ← call .createClientWithTracing env.createClientWithTracing
      shortDecl .c .err r
      let e ← readErr .err
      if e ≠ none then
        block (returnWith e)
      let v ← read .c
      assign .client v
  else
    block do
      let r ← call .createDefaultClient env.createDefaultClient
      shortDecl .c .err r
      let e ← readErr .err
      if e ≠ none then
        block (returnWith e)
      let v ← read .c
      assign .client v
  let v ← read .client
  discard v
  returnWith none

/-- Go `listing3` (main.go lines 55-72). -/
def listing3 (env : Env) : Exec Unit := do
  declVar .client (.handle none)
  declVar .err (.error none)
  if env.tracing then
    block do
      let r ← call .createClientWithTracing env.createClientWithTracing
      assignPair .client .err r
      let e ← readErr .err
      if e ≠ none then
        block (returnWith e)
  else
    block do
      let r ← call .createDefaultClient env.createDefaultClient
      assignPair .client .err r
      let e ← readErr .err
      if e ≠ none then
        block (returnWith e)
  let v ← read .client
  discard v
  returnWith none

/-- Go `listing4` (main.go lines 75-89). -/
def listing4 (env : Env) : Exec Unit := do
  declVar .client (.handle none)
  declVar .err (.error none)
  if env.tracing then
    block do
      let r ← call .createClientWithTracing env.createClientWithTracing
      assignPair .client .err r
  else
    block do
      let r ← call .createDefaultClient env.createDefaultClient
      assignPair .client .err r
  let e ← readErr .err
  if e ≠ none then
    block (returnWith e)
  let v ← read .client
  discard v
  returnWith none

/-- Go `createClientWithTracing` (main.go lines 99-101): `return nil, nil`. -/
def createClientWithTracing : Handle × Error := (none, none)

/-- Go `createDefaultClient` (main.go lines 103-105): `return nil, nil`. -/
def createDefaultClient : Handle × Error := (none, none)

/-- The environment of the repository: the flag `tracing` and the two stub constructors. -/
def repoEnv (tracing : Bool) : Env :=
  { tracing := tracing
    createClientWithTracing := createClientWithTracing
    createDefaultClient := createDefaultClient }

/-- Run a function from its entry state. -/
def run (f : Env → Exec Unit) (env : Env) : Res Unit := f env State.entry

/-- The error a run returned, if it executed a `return`. -/
def Res.returned {α : Type} : Res α → Option Error
  | .ret e _ => some e
  | _ => none

/-- The state at the `return` statement a run executed. -/
def Res.final {α : Type} : Res α → Option State
  | .ret _ s => some s
  | _ => none

/-- The variable `client` declared at the top of the function body: its binding in the
outermost scope of the stack. -/
def State.outerClient (s : State) : Option Val :=
  (s.scopes.getLast?).bind (Scope.find .client)

/-- The value of the outer `client` at the `return` statement a run executed. -/
def Res.outerClient {α : Type} (r : Res α) : Option Val :=
  r.final.bind State.outerClient

/-- The constructor calls a run made up to its `return`. -/
def Res.calls {α : Type} (r : Res α) : Option (List Ctor) :=
  r.final.map State.calls

/-- The values a run evaluated in `_ = x` statements up to its `return`. -/
def Res.discarded {α : Type} (r : Res α) : Option (List Val) :=
  r.final.map State.discarded

/-- The result pair of the constructor the flag selects. -/
def Env.selected (env : Env) : Handle × Error :=
  if env.tracing then env.createClientWithTracing else env.createDefaultClient

/-- The constructor the flag selects. -/
def Env.selectedCtor (env : Env) : Ctor :=
  if env.tracing then .createClientWithTracing else .createDefaultClient

/-- An environment whose selected constructor fails with a nil handle: `tracing` is true
and `createClientWithTracing` returns `nil, errors.New("boom")`. -/
def envNilHandleError : Env :=
  { tracing := true
    createClientWithTracing := (none, some "boom")
    createDefaultClient := (none, none) }

/-- An environment whose selected constructor fails with a non-nil handle. -/
def envHandleError : Env :=
  { tracing := false
    createClientWithTracing := (none, none)
    createDefaultClient := (some 7, some "boom") }

/-- An environment in which both constructors succeed with distinct non-nil handles. -/
def envSuccess : Env :=
  { tracing := true
    createClientWithTracing := (some 5, none)
    createDefaultClient := (some 7, none) }

end Shadowing


namespace InitFunctions

/-- What a run of a program lets an observer see: a line written by `fmt.Println` in code of
package `pkg`, or a call of the function `fn` of package `pkg`. -/
inductive Event where
  | println (pkg : String) (line : String)
  | call (pkg : String) (fn : String) (args : List String)
  deriving DecidableEq

/-- The events of a run, oldest first. -/
abbrev Trace := List Event

/-- Statement `fmt.Println(line)` in code of package `pkg`. -/
def fmtPrintln (pkg line : String) : Trace → Trace := fun t => t ++ [Event.println pkg line]

/-- Evaluating a function literal `func() T { body }` yields the function value; the body
does not run. -/
def evalFuncLit {α : Type} (body : Trace → Trace × α) : Trace → Trace × (Trace → Trace × α) :=
  fun t => (t, body)

/-- Evaluating a call `f()` runs the body of `f`. -/
def evalCall {α : Type} (f : Trace → Trace × α) : Trace → Trace × α := fun t => f t

/-- A package as the Go runtime initialises it: the initialiser expressions of its
package-level variables, in initialisation order, and its `init` functions, in source
order. -/
structure Package where
  path : String
  varInits : List (Trace → Trace)
  inits : List (Trace → Trace)

/-- Run a list of actions one after the other. -/
def runAll (fs : List (Trace → Trace)) (t : Trace) : Trace := fs.foldl (fun acc f => f acc) t

/-- Initialisation of one package: all variable initialisers, then all `init` functions. -/
def Package.initialise (p : Package) (t : Trace) : Trace := runAll p.inits (runAll p.varInits t)

/-- A program: the packages its main package imports (dependencies first), the main
package, and the function `main`. -/
structure Program where
  imported : List Package
  mainPkg : Package
  main : Trace → Trace

/-- A run of a program: the imported packages are initialised, then the main package, then
`main` is called. -/
def Program.run (p : Program) : Trace :=
  p.main (p.mainPkg.initialise (runAll (p.imported.map Package.initialise) []))

end InitFunctions

namespace InitSub

open InitFunctions

/-- The function literal on the right of `var a =` (sub/main.go lines 10-13): when called it
prints `var` and returns 0. -/
def aBody : Trace → Trace × Int := fun t => (fmtPrintln "main" "var" t, 0)

/-- The initialiser of `a` (sub/main.go lines 10-13). The expression is the function literal
itself: the source has no call parentheses after the closing brace. -/
def a : Trace → Trace × (Trace → Trace × Int) := evalFuncLit aBody

/-- Go `init` (sub/main.go lines 15-17). -/
def init : Trace → Trace := fmtPrintln "main" "init"

/-- Go `main` (sub/main.go lines 19-21). -/
def main : Trace → Trace := fmtPrintln "main" "main"

/-- The package of sub/main.go. -/
def pkg : Package := { path := "main", varInits := [fun t => (a t).1], inits := [init] }

/-- The program of sub/main.go; the only import is `fmt`, which prints nothing. -/
def program : Program := { imported := [], mainPkg := pkg, main := main }

end InitSub

namespace InitMain

open InitFunctions

/-- The imported package `redis`, whose source is not part of the repository: the lines its
variable initialisers print, the lines its `init` functions print, and for `Store(key, value)`
the lines it prints and the error it returns. -/
structure Redis where
  varOutput : List String
  initOutput : List String
  store : String → String → List String × Option String

/-- Print the given lines from code of package `redis`. -/
def redisPrint (lines : List String) : Trace → Trace :=
  fun t => t ++ lines.map (Event.println "redis")

/-- The package `redis` as the runtime initialises it. -/
def Redis.pkg (r : Redis) : Package :=
  { path := "redis", varInits := [redisPrint r.varOutput], inits := [redisPrint r.initOutput] }

/-- First Go `init` (main/main.go lines 14-16). -/
def init1 : Trace → Trace := fmtPrintln "main" "init 1"

/-- Second Go `init` (main/main.go lines 18-20). -/
def init2 : Trace → Trace := fmtPrintln "main" "init 2"

/-- Go `main` (main/main.go lines 22-25): `err := redis.Store("foo", "bar")`, `_ = err`. -/
def main (r : Redis) : Trace → Trace := fun t =>
  let t1 := t ++ [Event.call "redis" "Store" ["foo", "bar"]]
  let res := r.store "foo" "bar"
  let t2 := redisPrint res.1 t1
  let err := res.2
  let _ := err
  t2

/-- The package of main/main.go: no package-level variables, two `init` functions. -/
def pkg : Package := { path := "main", varInits := [], inits := [init1, init2] }

/-- The program of main/main.go. -/
def program (r : Redis) : Program := { imported := [r.pkg], mainPkg := pkg, main := main r }

/-- The event of the first `init` of the main package. -/
def evInit1 : Event := Event.println "main" "init 1"

/-- The event of the second `init` of the main package. -/
def evInit2 : Event := Event.println "main" "init 2"

/-- The event of the call `redis.Store("foo", "bar")` in `main`. -/
def evStore : Event := Event.call "redis" "Store" ["foo", "bar"]

end InitMain


namespace Shadowing

/-- Closed form of a run of `listing1`. -/
theorem run_listing1 (env : Env) :
    run listing1 env =
      match env.selected.2 with
      | none => Res.ret none
          { scopes := [[(Ident.client, Val.handle none)]]
            calls := [env.selectedCtor]
            logged := [Val.handle env.selected.1]
            discarded := [Val.handle none] }
      | some e => Res.ret (some e)
          { scopes := [[], [(Ident.err, Val.error (some e)), (Ident.client, Val.handle env.selected.1)],
              [(Ident.client, Val.handle none)]]
            calls := [env.selectedCtor]
            logged := []
            discarded := [] } := by
  obtain ⟨t, ⟨h1, e1⟩, ⟨h2, e2⟩⟩ := env
  cases t <;> cases e1 <;> cases e2 <;> rfl

/-- Closed form of a run of `listing2`. -/
theorem run_listing2 (env : Env) :
    run listing2 env =
      match env.selected.2 with
      | none => Res.ret none
          { scopes := [[(Ident.client, Val.handle env.selected.1)]]
            calls := [env.selectedCtor]
            logged := []
            discarded := [Val.handle env.selected.1] }
      | some e => Res.ret (some e)
          { scopes := [[], [(Ident.err, Val.error (some e)), (Ident.c, Val.handle env.selected.1)],
              [(Ident.client, Val.handle none)]]
            calls := [env.selectedCtor]
            logged := []
            discarded := [] } := by
  obtain ⟨t, ⟨h1, e1⟩, ⟨h2, e2⟩⟩ := env
  cases t <;> cases e1 <;> cases e2 <;> rfl

/-- Closed form of a run of `listing3`. -/
theorem run_listing3 (env : Env) :
    run listing3 env =
      match env.selected.2 with
      | none => Res.ret none
          { scopes := [[(Ident.err, Val.error none), (Ident.client, Val.handle env.selected.1)]]
            calls := [env.selectedCtor]
            logged := []
            discarded := [Val.handle env.selected.1] }
      | some e => Res.ret (some e)
          { scopes := [[], [],
              [(Ident.err, Val.error (some e)), (Ident.client, Val.handle env.selected.1)]]
            calls := [env.selectedCtor]
            logged := []
            discarded := [] } := by
  obtain ⟨t, ⟨h1, e1⟩, ⟨h2, e2⟩⟩ := env
  cases t <;> cases e1 <;> cases e2 <;> rfl

/-- Closed form of a run of `listing4`. -/
theorem run_listing4 (env : Env) :
    run listing4 env =
      match env.selected.2 with
      | none => Res.ret none
          { scopes := [[(Ident.err, Val.error none), (Ident.client, Val.handle env.selected.1)]]
            calls := [env.selectedCtor]
            logged := []
            discarded := [Val.handle env.selected.1] }
      | some e => Res.ret (some e)
          { scopes := [[],
              [(Ident.err, Val.error (some e)), (Ident.client, Val.handle env.selected.1)]]
            calls := [env.selectedCtor]
            logged := []
            discarded := [] } := by
  obtain ⟨t, ⟨h1, e1⟩, ⟨h2, e2⟩⟩ := env
  cases t <;> cases e1 <;> cases e2 <;> rfl

/-- C1: in `listing2`, `listing3` and `listing4`, for every flag and every pair of
constructor results with a nil error, the final `_ = client` is reached and evaluates the
outer `client` to the handle of `createClientWithTracing` when `tracing` is true and to the
handle of `createDefaultClient` when it is false, and that is the value of the outer `client`
when the function returns. -/
theorem corrected_variants_set_outer_client (env : Env)
    (hT : env.createClientWithTracing.2 = none) (hD : env.createDefaultClient.2 = none) :
    ((run listing2 env).discarded
        = some [Val.handle (if env.tracing then env.createClientWithTracing.1
            else env.createDefaultClient.1)]
      ∧ (run listing2 env).outerClient
        = some (Val.handle (if env.tracing then env.createClientWithTracing.1
            else env.createDefaultClient.1)))
    ∧ ((run listing3 env).discarded
        = some [Val.handle (if env.tracing then env.createClientWithTracing.1
            else env.createDefaultClient.1)]
      ∧ (run listing3 env).outerClient
        = some (Val.handle (if env.tracing then env.createClientWithTracing.1
            else env.createDefaultClient.1)))
    ∧ ((run listing4 env).discarded
        = some [Val.handle (if env.tracing then env.createClientWithTracing.1
            else env.createDefaultClient.1)]
      ∧ (run listing4 env).outerClient
        = some (Val.handle (if env.tracing then env.createClientWithTracing.1
            else env.createDefaultClient.1))) := by
  obtain ⟨t, ⟨h1, e1⟩, ⟨h2, e2⟩⟩ := env
  simp only at hT hD
  subst hT hD
  cases t <;> exact ⟨⟨rfl, rfl⟩, ⟨rfl, rfl⟩, ⟨rfl, rfl⟩⟩

/-- Witness of C1 at `tracing = true` with handles 5 and 7. -/
theorem corrected_variants_set_outer_client_witness :
    (envSuccess.createClientWithTracing.2 = none ∧ envSuccess.createDefaultClient.2 = none)
    ∧ ((run listing2 envSuccess).discarded = some [Val.handle (some 5)]
      ∧ (run listing2 envSuccess).outerClient = some (Val.handle (some 5)))
    ∧ ((run listing3 envSuccess).discarded = some [Val.handle (some 5)]
      ∧ (run listing3 envSuccess).outerClient = some (Val.handle (some 5)))
    ∧ ((run listing4 envSuccess).discarded = some [Val.handle (some 5)]
      ∧ (run listing4 envSuccess).outerClient = some (Val.handle (some 5))) :=
  ⟨⟨rfl, rfl⟩, corrected_variants_set_outer_client envSuccess rfl rfl⟩

/-- C2: in `listing1`, for every flag and every constructor result, the function returns,
and at the `return` it executes the function-body scope binds `client` to nil and nothing
else. The handle of the selected constructor is bound only in the block of the branch: on
the error return that block is still open and binds `client` to the handle, on the normal
return the block is closed, the handle was passed to `log.Println`, and `_ = client` read
nil. -/
theorem listing1_outer_client_nil (env : Env) :
    ∃ e s, run listing1 env = Res.ret e s
      ∧ s.outerClient = some (Val.handle none)
      ∧ s.scopes.getLast? = some [(Ident.client, Val.handle none)]
      ∧ (e = none →
          s.scopes = [[(Ident.client, Val.handle none)]]
          ∧ s.logged = [Val.handle env.selected.1]
          ∧ s.discarded = [Val.handle none])
      ∧ (e ≠ none →
          s.scopes = [[], [(Ident.err, Val.error e), (Ident.client, Val.handle env.selected.1)],
            [(Ident.client, Val.handle none)]]
          ∧ s.logged = [] ∧ s.discarded = []) := by
  rw [run_listing1]
  cases h : env.selected.2 with
  | none => exact ⟨_, _, rfl, rfl, rfl, fun _ => ⟨rfl, rfl, rfl⟩, fun hne => absurd rfl hne⟩
  | some e =>
    exact ⟨_, _, rfl, rfl, rfl, fun hnone => Option.noConfusion hnone, fun _ => ⟨rfl, rfl, rfl⟩⟩

/-- Witness of C2 on the error path with a non-nil handle: the outer `client` is nil while
the block binds `client` to the handle 7. -/
theorem listing1_outer_client_nil_witness :
    (run listing1 envHandleError).outerClient = some (Val.handle none)
    ∧ (run listing1 envHandleError).final.map State.scopes
        = some [[], [(Ident.err, Val.error (some "boom")), (Ident.client, Val.handle (some 7))],
            [(Ident.client, Val.handle none)]] := by
  obtain ⟨e, s, hrun, hout, -, -, herr⟩ := listing1_outer_client_nil envHandleError
  have he : e = some "boom" := by
    have h2 : (run listing1 envHandleError).returned = some e := by rw [hrun]; rfl
    have h3 : (run listing1 envHandleError).returned = some (some "boom") := rfl
    exact Option.some.inj (h2.symm.trans h3)
  subst he
  have hs := (herr (by simp)).1
  rw [hrun]
  exact ⟨hout, by simp [Res.final, hs, Env.selected, envHandleError]⟩

/-- C3: each of `listing1` .. `listing4` returns, for every flag and every constructor
result, exactly the error of the constructor the flag selects: that error when it is
non-nil, nil when it is nil. -/
theorem listings_return_selected_error (env : Env) :
    (run listing1 env).returned
        = some (if env.tracing then env.createClientWithTracing.2 else env.createDefaultClient.2)
    ∧ (run listing2 env).returned
        = some (if env.tracing then env.createClientWithTracing.2 else env.createDefaultClient.2)
    ∧ (run listing3 env).returned
        = some (if env.tracing then env.createClientWithTracing.2 else env.createDefaultClient.2)
    ∧ (run listing4 env).returned
        = some (if env.tracing then env.createClientWithTracing.2
            else env.createDefaultClient.2) := by
  obtain ⟨t, ⟨h1, e1⟩, ⟨h2, e2⟩⟩ := env
  cases t <;> cases e1 <;> cases e2 <;> exact ⟨rfl, rfl, rfl, rfl⟩

/-- C7: both stub constructors return a nil handle and a nil error, and with them each of
`listing1` .. `listing4`, for both values of `tracing`, runs to its final `_ = client` and
returns the nil error: no error return is taken. -/
theorem stubs_nil_and_listings_return_nil :
    createClientWithTracing = (none, none)
    ∧ createDefaultClient = (none, none)
    ∧ ∀ tracing : Bool,
        ((run listing1 (repoEnv tracing)).returned = some none
          ∧ (run listing1 (repoEnv tracing)).discarded = some [Val.handle none])
        ∧ ((run listing2 (repoEnv tracing)).returned = some none
          ∧ (run listing2 (repoEnv tracing)).discarded = some [Val.handle none])
        ∧ ((run listing3 (repoEnv tracing)).returned = some none
          ∧ (run listing3 (repoEnv tracing)).discarded = some [Val.handle none])
        ∧ ((run listing4 (repoEnv tracing)).returned = some none
          ∧ (run listing4 (repoEnv tracing)).discarded = some [Val.handle none]) := by
  refine ⟨rfl, rfl, ?_⟩
  intro t
  cases t <;> exact ⟨⟨rfl, rfl⟩, ⟨rfl, rfl⟩, ⟨rfl, rfl⟩, ⟨rfl, rfl⟩⟩

/-- C8: `listing4` and `listing3` behave alike for every flag and every constructor result:
both return, with the same error, the same value of the outer `client` at the `return`, the
same constructor calls, the same `log.Println` arguments and the same `_ = client` reads. -/
theorem listing4_equiv_listing3 (env : Env) :
    ∃ e v, (run listing3 env).returned = some e ∧ (run listing4 env).returned = some e
      ∧ (run listing3 env).outerClient = some v ∧ (run listing4 env).outerClient = some v
      ∧ (run listing4 env).calls = (run listing3 env).calls
      ∧ (run listing4 env).discarded = (run listing3 env).discarded
      ∧ (run listing4 env).final.map State.logged
          = (run listing3 env).final.map State.logged := by
  rw [run_listing3, run_listing4]
  cases env.selected.2 with
  | none => exact ⟨_, _, rfl, rfl, rfl, rfl, rfl, rfl, rfl⟩
  | some e => exact ⟨_, _, rfl, rfl, rfl, rfl, rfl, rfl, rfl⟩

/-- C9: each of `listing1` .. `listing4` makes exactly one constructor call per run: the
list of calls is `[createClientWithTracing]` when `tracing` is true and
`[createDefaultClient]` when it is false, whatever the constructors return. -/
theorem listings_call_one_constructor (env : Env) :
    (run listing1 env).calls
        = some [if env.tracing then Ctor.createClientWithTracing else Ctor.createDefaultClient]
    ∧ (run listing2 env).calls
        = some [if env.tracing then Ctor.createClientWithTracing else Ctor.createDefaultClient]
    ∧ (run listing3 env).calls
        = some [if env.tracing then Ctor.createClientWithTracing else Ctor.createDefaultClient]
    ∧ (run listing4 env).calls
        = some [if env.tracing then Ctor.createClientWithTracing
            else Ctor.createDefaultClient] := by
  obtain ⟨t, ⟨h1, e1⟩, ⟨h2, e2⟩⟩ := env
  cases t <;> cases e1 <;> cases e2 <;> exact ⟨rfl, rfl, rfl, rfl⟩

/-- C10 as stated fails: when the selected constructor returns a non-nil error together
with the nil handle, `listing2`, `listing3` and `listing4` all return that error with the
outer `client` nil, so they agree on the outer handle off the success path. -/
theorem variants_agree_on_error_path_with_nil_handle :
    ((run listing2 envNilHandleError).returned = some (some "boom")
      ∧ (run listing2 envNilHandleError).outerClient = some (Val.handle none)
      ∧ (run listing3 envNilHandleError).outerClient = some (Val.handle none)
      ∧ (run listing4 envNilHandleError).outerClient = some (Val.handle none))
    ∧ ¬ ((run listing2 envNilHandleError).outerClient
            = (run listing3 envNilHandleError).outerClient
          ∧ (run listing2 envNilHandleError).outerClient
            = (run listing4 envNilHandleError).outerClient
        → envNilHandleError.selected.2 = none) := by
  refine ⟨⟨rfl, rfl, rfl, rfl⟩, ?_⟩
  intro h
  have h2 := h ⟨rfl, rfl⟩
  exact absurd h2 (by decide)

/-- C10 amended: when the selected constructor returns a non-nil error with a handle `h`,
`listing2` returns with the outer `client` nil and `listing3`, `listing4` return with it set
to `h`; the three variants agree on the outer handle exactly on the success path and on the
error paths where `h` is nil. -/
theorem variants_outer_client_on_error (env : Env) :
    (env.selected.2 ≠ none →
        (run listing2 env).outerClient = some (Val.handle none)
        ∧ (run listing3 env).outerClient = some (Val.handle env.selected.1)
        ∧ (run listing4 env).outerClient = some (Val.handle env.selected.1))
    ∧ (((run listing2 env).outerClient = (run listing3 env).outerClient
          ∧ (run listing2 env).outerClient = (run listing4 env).outerClient)
        ↔ (env.selected.2 = none ∨ env.selected.1 = none)) := by
  rw [run_listing2, run_listing3, run_listing4]
  cases he : env.selected.2 with
  | none => exact ⟨fun h => absurd rfl h, ⟨fun _ => Or.inl rfl, fun _ => ⟨rfl, rfl⟩⟩⟩
  | some e =>
    refine ⟨fun _ => ⟨rfl, rfl, rfl⟩, ?_⟩
    cases hh : env.selected.1 with
    | none => exact ⟨fun _ => Or.inr rfl, fun _ => ⟨rfl, rfl⟩⟩
    | some a =>
      constructor
      · intro h
        have h1 := h.1
        simp [Res.outerClient, Res.final, State.outerClient, Scope.find] at h1
      · intro h
        rcases h with h | h
        · exact Option.noConfusion h
        · exact Option.noConfusion h

/-- Witness of the amended C10 on an error path with the non-nil handle 7: `listing2` leaves
the outer `client` nil, `listing3` and `listing4` hold the handle. -/
theorem variants_outer_client_on_error_witness :
    envHandleError.selected.2 ≠ none
    ∧ (run listing2 envHandleError).outerClient = some (Val.handle none)
    ∧ (run listing3 envHandleError).outerClient = some (Val.handle (some 7))
    ∧ (run listing4 envHandleError).outerClient = some (Val.handle (some 7)) :=
  ⟨by decide, (variants_outer_client_on_error envHandleError).1 (by decide)⟩

end Shadowing

namespace InitFunctions

/-- A line printed by package `redis` is never an event of package `main`. -/
theorem println_main_not_mem_redis (line : String) (lines : List String) :
    Event.println "main" line ∉ lines.map (Event.println "redis") := by
  intro h
  obtain ⟨l, -, hl⟩ := List.mem_map.mp h
  have hp : "redis" = "main" := by injection hl
  exact absurd hp (by decide)

/-- A line printed by package `redis` is never a call event. -/
theorem call_not_mem_redis (pkg fn : String) (args lines : List String) :
    Event.call pkg fn args ∉ lines.map (Event.println "redis") := by
  intro h
  obtain ⟨l, -, hl⟩ := List.mem_map.mp h
  exact Event.noConfusion hl

end InitFunctions

namespace InitMain

open InitFunctions

/-- Closed form of a run of the program of main/main.go. -/
theorem run_program (r : Redis) :
    (program r).run
      = r.varOutput.map (Event.println "redis") ++ (r.initOutput.map (Event.println "redis")
        ++ (evInit1 :: evInit2 :: evStore
          :: (r.store "foo" "bar").1.map (Event.println "redis"))) := by
  simp [Program.run, program, Package.initialise, runAll, Redis.pkg, pkg, main, redisPrint,
    init1, init2, fmtPrintln, evInit1, evInit2, evStore]

/-- Position and multiplicity of an event that follows a prefix printed by `redis`. -/
theorem count_after_redis (e : Event) (xs ys : List String) (rest : List Event)
    (hx : e ∉ xs.map (Event.println "redis")) (hy : e ∉ ys.map (Event.println "redis")) :
    (xs.map (Event.println "redis") ++ (ys.map (Event.println "redis") ++ rest)).count e
        = rest.count e
    ∧ (xs.map (Event.println "redis") ++ (ys.map (Event.println "redis") ++ rest)).indexOf e
        = xs.length + (ys.length + rest.indexOf e) := by
  constructor
  · rw [List.count_append, List.count_append, List.count_eq_zero_of_not_mem hx,
      List.count_eq_zero_of_not_mem hy]
    simp
  · rw [List.indexOf_append_of_not_mem hx, List.indexOf_append_of_not_mem hy]
    simp

/-- C5: in every run of the program of main/main.go, whatever the package `redis` prints,
the main package prints `init 1` exactly once and `init 2` exactly once, `main` calls
`redis.Store("foo", "bar")` exactly once, and `init 1` comes before `init 2`, which comes
before the call of `redis.Store`. -/
theorem main_inits_in_source_order_before_main (r : Redis) :
    (program r).run.count evInit1 = 1
    ∧ (program r).run.count evInit2 = 1
    ∧ (program r).run.count evStore = 1
    ∧ (program r).run.indexOf evInit1 < (program r).run.indexOf evInit2
    ∧ (program r).run.indexOf evInit2 < (program r).run.indexOf evStore
    ∧ (program r).run.indexOf evStore < (program r).run.length := by
  have n1 : ∀ ls : List String, evInit1 ∉ ls.map (Event.println "redis") :=
    fun ls => println_main_not_mem_redis _ ls
  have n2 : ∀ ls : List String, evInit2 ∉ ls.map (Event.println "redis") :=
    fun ls => println_main_not_mem_redis _ ls
  have n3 : ∀ ls : List String, evStore ∉ ls.map (Event.println "redis") :=
    fun ls => call_not_mem_redis _ _ _ ls
  have h1 := count_after_redis evInit1 r.varOutput r.initOutput
    (evInit1 :: evInit2 :: evStore :: (r.store "foo" "bar").1.map (Event.println "redis"))
    (n1 _) (n1 _)
  have h2 := count_after_redis evInit2 r.varOutput r.initOutput
    (evInit1 :: evInit2 :: evStore :: (r.store "foo" "bar").1.map (Event.println "redis"))
    (n2 _) (n2 _)
  have h3 := count_after_redis evStore r.varOutput r.initOutput
    (evInit1 :: evInit2 :: evStore :: (r.store "foo" "bar").1.map (Event.println "redis"))
    (n3 _) (n3 _)
  have c1 : (evInit1 :: evInit2 :: evStore
      :: (r.store "foo" "bar").1.map (Event.println "redis")).count evInit1 = 1 := by
    rw [List.count_cons_self, List.count_cons_of_ne (by decide),
      List.count_cons_of_ne (by decide),
      List.count_eq_zero_of_not_mem (n1 _)]
  have c2 : (evInit1 :: evInit2 :: evStore
      :: (r.store "foo" "bar").1.map (Event.println "redis")).count evInit2 = 1 := by
    rw [List.count_cons_of_ne (by decide), List.count_cons_self,
      List.count_cons_of_ne (by decide),
      List.count_eq_zero_of_not_mem (n2 _)]
  have c3 : (evInit1 :: evInit2 :: evStore
      :: (r.store "foo" "bar").1.map (Event.println "redis")).count evStore = 1 := by
    rw [List.count_cons_of_ne (by decide), List.count_cons_of_ne (by decide),
      List.count_cons_self,
      List.count_eq_zero_of_not_mem (n3 _)]
  have i1 : (evInit1 :: evInit2 :: evStore
      :: (r.store "foo" "bar").1.map (Event.println "redis")).indexOf evInit1 = 0 :=
    List.indexOf_cons_self _ _
  have i2 : (evInit1 :: evInit2 :: evStore
      :: (r.store "foo" "bar").1.map (Event.println "redis")).indexOf evInit2 = 1 := by
    rw [List.indexOf_cons_ne _ (by decide), List.indexOf_cons_self]
  have i3 : (evInit1 :: evInit2 :: evStore
      :: (r.store "foo" "bar").1.map (Event.println "redis")).indexOf evStore = 2 := by
    rw [List.indexOf_cons_ne _ (by decide), List.indexOf_cons_ne _ (by decide),
      List.indexOf_cons_self]
  rw [run_program, h1.1, h2.1, h3.1, h1.2, h2.2, h3.2, c1, c2, c3, i1, i2, i3]
  refine ⟨rfl, rfl, rfl, by omega, by omega, ?_⟩
  simp only [List.length_append, List.length_map, List.length_cons]
  omega

/-- C6: in every run of the program of main/main.go, the trace starts with the complete
initialisation of `redis` (the lines of its variable initialisers, then the lines of its
`init` functions), directly followed by `init 1`, then `init 2`, then the run of `main`,
which starts with the call of `redis.Store`; neither `init 1` nor `init 2` occurs inside the
initialisation of `redis`. -/
theorem redis_initialised_before_main_package (r : Redis) :
    (r.pkg).initialise []
        = r.varOutput.map (Event.println "redis") ++ r.initOutput.map (Event.println "redis")
    ∧ (program r).run.take ((r.pkg).initialise []).length = (r.pkg).initialise []
    ∧ (program r).run.drop ((r.pkg).initialise []).length
        = evInit1 :: evInit2 :: main r []
    ∧ (main r []).head? = some evStore
    ∧ evInit1 ∉ (r.pkg).initialise []
    ∧ evInit2 ∉ (r.pkg).initialise [] := by
  have hinit : (r.pkg).initialise []
      = r.varOutput.map (Event.println "redis")
        ++ r.initOutput.map (Event.println "redis") := by
    simp [Package.initialise, runAll, Redis.pkg, redisPrint]
  have hrun : (program r).run = (r.pkg).initialise [] ++ (evInit1 :: evInit2 :: main r []) := by
    rw [run_program, hinit]
    simp [main, redisPrint, evStore]
  refine ⟨hinit, ?_, ?_, ?_, ?_, ?_⟩
  · rw [hrun, List.take_left]
  · rw [hrun, List.drop_left]
  · simp [main, redisPrint, evStore]
  · rw [hinit, List.mem_append]
    exact fun h => h.elim (println_main_not_mem_redis _ _) (println_main_not_mem_redis _ _)
  · rw [hinit, List.mem_append]
    exact fun h => h.elim (println_main_not_mem_redis _ _) (println_main_not_mem_redis _ _)

end InitMain

namespace InitSub

open InitFunctions

/-- C4 on the code: a run of the program of sub/main.go prints `init` and then `main`, and
never prints `var`. The initialiser of `a` is a function literal that is not called, so its
body, which holds the `fmt.Println("var")`, does not run during initialisation. -/
theorem sub_program_output :
    program.run = [Event.println "main" "init", Event.println "main" "main"]
    ∧ Event.println "main" "var" ∉ program.run
    ∧ program.run
        ≠ [Event.println "main" "var", Event.println "main" "init",
            Event.println "main" "main"] := by
  decide

end InitSub
